import Mathlib

/-!
Shallow embedding of the database connection-management layer of the
WCP-Library repository (`src/wcp_library/sql/__init__.py`,
`src/wcp_library/sql/oracle.py`, `src/wcp_library/sql/postgres.py`),
together with theorems checking the natural-language specification
against it.

Conventions used throughout:
* Python strings are modelled as Lean `String` / `List Char`.
* A Python function that can raise is modelled as returning
  `Except String _`; the error payload is the exception message.
* DataFrame cells are modelled by the inductive type `Cell`, which
  distinguishes the values that the bulk writers treat specially
  (empty string, `np.nan`, `pd.NaT`, `None`).
* Driver calls (network I/O) are not performed; instead every
  operation returns the list of batch statements it would hand to the
  driver, so that "issues no statement" and "the statement is exactly
  ..." are statable.
-/

namespace WcpLib

/-! ## Characters of Oracle identifiers

`oracle.py` validates identifiers with
`re.compile(r'^[A-Za-z][A-Za-z0-9_#$]*(\.[A-Za-z][A-Za-z0-9_#$]*)?$')`.
We model the character classes of that pattern.  `Char.isAlpha`,
`Char.isDigit` in Lean core are exactly the ASCII classes `[A-Za-z]`,
`[0-9]` used by the pattern.
-/

/-- Membership in the character class `[A-Za-z0-9_#$]` of the pattern. -/
def identTailOk (c : Char) : Bool :=
  c.isAlpha || c.isDigit || decide (c = '_') || decide (c = '#') || decide (c = '$')

/-- One identifier part: the language of `[A-Za-z][A-Za-z0-9_#$]*`. -/
def partOk : List Char → Bool
  | [] => false
  | c :: cs => c.isAlpha && cs.all identTailOk

/-- Model of Python `str.split('.')` on a list of characters.
`splitDot [] = [[]]`, matching `''.split('.') == ['']`. -/
def splitDot : List Char → List (List Char)
  | [] => [[]]
  | c :: cs =>
    if c = '.' then [] :: splitDot cs
    else
      match splitDot cs with
      | [] => [[c]]
      | p :: ps => (c :: p) :: ps

/-- Model of Python `'.'.join` on lists of characters. -/
def joinDot : List (List Char) → List Char
  | [] => []
  | [p] => p
  | p :: ps => p ++ '.' :: joinDot ps

/-- The language of the regular expression
`^[A-Za-z][A-Za-z0-9_#$]*(\.[A-Za-z][A-Za-z0-9_#$]*)?$` read with `$`
anchored at the true end of the string (the grammar as written in the
spec): one part, or two parts joined by a single dot.  Because the part
character classes exclude `'.'`, this is equivalent to: splitting on
`'.'` yields one or two parts, each in the part language. -/
def matchesIdentGrammar (l : List Char) : Bool :=
  match splitDot l with
  | [p] => partOk p
  | [p, q] => partOk p && partOk q
  | _ => false

/-- Semantics of `VALID_IDENTIFIER_PATTERN.match(s)` succeeding under
Python `re`: `$` (without `re.MULTILINE`) matches at the end of the
string *or just before a newline at the end of the string*, so a
string consisting of a grammar match followed by one trailing `'\n'`
also matches. -/
def pyMatchesIdentPattern (l : List Char) : Bool :=
  matchesIdentGrammar l ||
    (decide (l.getLast? = some '\n') && matchesIdentGrammar l.dropLast)

/-- The quoting computation of `_quote_identifier` (oracle.py lines
37-40): split on `'.'`, uppercase each part, wrap each part in double
quotes, rejoin with `'.'`. -/
def quoteRawL (l : List Char) : List Char :=
  joinDot ((splitDot l).map (fun p => '"' :: (p.map Char.toUpper) ++ ['"']))

/-- `quoteRawL` lifted to `String`. -/
def quoteRaw (s : String) : String :=
  String.mk (quoteRawL s.data)

/-- `_quote_identifier` (oracle.py lines 19-40): raises on the empty
string, raises when the pattern does not match, otherwise returns the
quoted identifier. -/
def _quote_identifier (identifier : String) : Except String String :=
  if identifier.data = [] then
    Except.error "Identifier cannot be empty"
  else if pyMatchesIdentPattern identifier.data then
    Except.ok (quoteRaw identifier)
  else
    Except.error ("Invalid Oracle identifier: " ++ identifier)

/-- Removing every double-quote character from a string ("stripping the
quotes" of a quoted identifier). -/
def stripQuotes (s : String) : String :=
  String.mk (s.data.filter (fun c => decide (c ≠ '"')))

/-! ## The retry decorators (`sql/__init__.py`)

`retry` (lines 12-45) wraps a method: it zeroes `self._retry_count`,
then loops: call the function; on success return; on a caught driver
error take `(error_obj,) = e.args` — if `error_obj` is a plain string
re-raise, else if `error_obj.full_code` is in `self.retry_error_codes`
and `self._retry_count < self.retry_limit` increment the count, sleep
300 seconds and loop again, otherwise re-raise.

We model the successive behaviours of the wrapped call as a finite
trace of call results.  The run returns `none` if the trace is
exhausted before the loop decides, and otherwise the decision together
with the list of sleep durations performed (one `300` per retry).
All modelled errors stand for exceptions of the classes caught by the
decorator's `except` clause. -/

/-- `e.args[0]` of a caught driver exception: either a plain string or
a structured error object carrying `full_code` and `message`. -/
inductive PyErr where
  | plainMsg (s : String)
  | coded (full_code : String) (message : String)
deriving DecidableEq, Repr

/-- One invocation of the wrapped function: it returns a value or
raises a driver error. -/
inductive CallResult (α : Type) where
  | ok (v : α)
  | raise (e : PyErr)
deriving DecidableEq, Repr

/-- The loop of the `retry` decorator, carrying `self._retry_count`. -/
def retryLoop {α : Type} (codes : List String) (limit : Nat) :
    Nat → List (CallResult α) → Option (Except PyErr α × List Nat)
  | _, [] => none
  | _, CallResult.ok v :: _ => some (Except.ok v, [])
  | count, CallResult.raise e :: rest =>
    match e with
    | PyErr.plainMsg s => some (Except.error (PyErr.plainMsg s), [])
    | PyErr.coded code msg =>
      if code ∈ codes ∧ count < limit then
        (retryLoop codes limit (count + 1) rest).map (fun o => (o.1, 300 :: o.2))
      else
        some (Except.error (PyErr.coded code msg), [])

/-- `retry` applied to a call whose successive invocations behave as
`trace`: the count starts at `0`. -/
def retryRun {α : Type} (codes : List String) (limit : Nat)
    (trace : List (CallResult α)) : Option (Except PyErr α × List Nat) :=
  retryLoop codes limit 0 trace

/-- The loop of the `async_retry` decorator (lines 48-81).  The Python
body is identical to `retry` except that the call is awaited and the
wait is `await asyncio.sleep(300)` instead of `time.sleep(300)`. -/
def asyncRetryLoop {α : Type} (codes : List String) (limit : Nat) :
    Nat → List (CallResult α) → Option (Except PyErr α × List Nat)
  | _, [] => none
  | _, CallResult.ok v :: _ => some (Except.ok v, [])
  | count, CallResult.raise e :: rest =>
    match e with
    | PyErr.plainMsg s => some (Except.error (PyErr.plainMsg s), [])
    | PyErr.coded code msg =>
      if code ∈ codes ∧ count < limit then
        (asyncRetryLoop codes limit (count + 1) rest).map (fun o => (o.1, 300 :: o.2))
      else
        some (Except.error (PyErr.coded code msg), [])

/-- `async_retry` applied to a trace of call behaviours. -/
def asyncRetryRun {α : Type} (codes : List String) (limit : Nat)
    (trace : List (CallResult α)) : Option (Except PyErr α × List Nat) :=
  asyncRetryLoop codes limit 0 trace

/-- `oracle_retry_codes` (oracle.py line 13). -/
def oracle_retry_codes : List String :=
  ["ORA-01033", "DPY-6005", "DPY-4011", "ORA-08103", "ORA-04021", "ORA-01652", "ORA-08103"]

/-- `postgres_retry_codes` (postgres.py line 14). -/
def postgres_retry_codes : List String :=
  ["08001", "08004", "40P01"]

/-! ## DataFrame model

The bulk writers consume a `pandas.DataFrame`.  We model it as a
rectangular table of `Cell`s with named columns.  `Cell` distinguishes
the values the writers treat specially. -/

/-- A DataFrame cell value. -/
inductive Cell where
  | vStr (s : String)
  | vInt (n : Int)
  | vNull
  | vNaN
  | vNaT
deriving DecidableEq, Repr

/-- A rectangular table: named columns and rows of cells. -/
structure DataFrame where
  colNames : List String
  rows : List (List Cell)
deriving DecidableEq, Repr

/-- `df.empty` for the DataFrames reachable in the bulk writers (the
column list is non-empty there, so emptiness is emptiness of rows). -/
def DataFrame.isEmptyDf (df : DataFrame) : Bool :=
  df.rows.isEmpty

/-- `df[cols]`: project each row onto the named columns, in the order
requested. -/
def DataFrame.select (df : DataFrame) (cols : List String) : List (List Cell) :=
  df.rows.map (fun r => cols.map (fun c => r.getD (df.colNames.indexOf c) Cell.vNull))

/-- Worker for `dedupFirst`: emit each element whose value has not
been seen yet. -/
def dedupSeen {α : Type} [DecidableEq α] : List α → List α → List α
  | _, [] => []
  | seen, a :: l => if a ∈ seen then dedupSeen seen l else a :: dedupSeen (a :: seen) l

/-- `drop_duplicates(keep='first')`: keep the first occurrence of each
row. -/
def dedupFirst {α : Type} [DecidableEq α] (l : List α) : List α :=
  dedupSeen [] l

/-- `df.replace({np.nan: None, pd.NaT: None})`, cell-wise. -/
def replaceNanNat : Cell → Cell
  | Cell.vNaN => Cell.vNull
  | Cell.vNaT => Cell.vNull
  | c => c

/-- `df.replace({"": None})`, cell-wise. -/
def replaceEmptyStr : Cell → Cell
  | Cell.vStr "" => Cell.vNull
  | c => c

/-- The missing-value normalization pipeline shared by the writers:
`if remove_nan: df = df.replace({np.nan: None, pd.NaT: None})` then
unconditionally `df = df.replace({"": None})`. -/
def cleanRows (remove_nan : Bool) (rows : List (List Cell)) : List (List Cell) :=
  let a := if remove_nan then rows.map (List.map replaceNanNat) else rows
  a.map (List.map replaceEmptyStr)

/-! ## Oracle adapter (`oracle.py`)

The bulk writers build statements and hand them to `execute_many`
(driver `cursor.executemany`).  We model a writer as returning the
list of batch calls it would issue together with its return value;
a raised `ValueError` (or a `ValueError` escaping from
`_quote_identifier`) is an `Except.error`. -/

/-- One `executemany` call of the Oracle adapter: the statement text
and the list of bind-dictionaries (`df.to_dict('records')`). -/
structure OracleBatchCall where
  query : String
  binds : List (List (String × Cell))
deriving DecidableEq, Repr

namespace OracleConnection

/-- `OracleConnection.remove_matching_data` (oracle.py lines 312-341):
validate, short-circuit on an empty frame, deduplicate the projection
on `match_cols`, build one `DELETE` statement and one bind-dictionary
per distinct key tuple, return the number of dictionaries. -/
def remove_matching_data (df : DataFrame) (table_name : String)
    (match_cols : List String) : Except String (List OracleBatchCall × Nat) :=
  if match_cols = [] then
    Except.error "match_cols cannot be empty"
  else if ¬ match_cols.all (fun c => df.colNames.contains c) then
    Except.error "match_cols must be a subset of DataFrame columns"
  else if df.isEmptyDf then
    Except.ok ([], 0)
  else
    let df_subset := dedupFirst (df.select match_cols)
    let param_list := match_cols.map (fun column => column ++ " = :" ++ column)
    let params := " AND ".intercalate param_list
    (_quote_identifier table_name).bind (fun quoted_table =>
      let query := "DELETE FROM " ++ quoted_table ++ " WHERE " ++ params
      let main_dict := df_subset.map (fun r => match_cols.zip r)
      Except.ok ([⟨query, main_dict⟩], main_dict.length))

/-- `OracleConnection.export_df_to_warehouse` (oracle.py lines
343-377): validate, short-circuit on an empty frame, quote the table
and each column, normalize missing values, build one `INSERT`
statement with one bind-dictionary per row, return the row count. -/
def export_df_to_warehouse (df : DataFrame) (table_name : String)
    (columns : List String) (remove_nan : Bool) :
    Except String (List OracleBatchCall × Nat) :=
  if columns = [] then
    Except.error "columns cannot be empty"
  else if ¬ columns.all (fun c => df.colNames.contains c) then
    Except.error "columns must be a subset of DataFrame columns"
  else if df.isEmptyDf then
    Except.ok ([], 0)
  else
    (_quote_identifier table_name).bind (fun quoted_table =>
    (columns.mapM _quote_identifier).bind (fun quoted_columns =>
      let col_list := ", ".intercalate quoted_columns
      let bind_list := ", ".intercalate (columns.map (fun column => ":" ++ column))
      let df_copy := cleanRows remove_nan (df.select columns)
      let main_dict := df_copy.map (fun r => columns.zip r)
      let query := "INSERT INTO " ++ quoted_table ++ " (" ++ col_list ++ ") VALUES (" ++ bind_list ++ ")"
      Except.ok ([⟨query, main_dict⟩], main_dict.length)))

end OracleConnection

namespace AsyncOracleConnection

/-- `AsyncOracleConnection.remove_matching_data` (oracle.py lines
635-664); the Python body is identical to the blocking variant except
that `execute_many` is awaited. -/
def remove_matching_data (df : DataFrame) (table_name : String)
    (match_cols : List String) : Except String (List OracleBatchCall × Nat) :=
  if match_cols = [] then
    Except.error "match_cols cannot be empty"
  else if ¬ match_cols.all (fun c => df.colNames.contains c) then
    Except.error "match_cols must be a subset of DataFrame columns"
  else if df.isEmptyDf then
    Except.ok ([], 0)
  else
    let df_subset := dedupFirst (df.select match_cols)
    let param_list := match_cols.map (fun column => column ++ " = :" ++ column)
    let params := " AND ".intercalate param_list
    (_quote_identifier table_name).bind (fun quoted_table =>
      let query := "DELETE FROM " ++ quoted_table ++ " WHERE " ++ params
      let main_dict := df_subset.map (fun r => match_cols.zip r)
      Except.ok ([⟨query, main_dict⟩], main_dict.length))

/-- `AsyncOracleConnection.export_df_to_warehouse` (oracle.py lines
666-700); the Python body is identical to the blocking variant except
that `execute_many` is awaited. -/
def export_df_to_warehouse (df : DataFrame) (table_name : String)
    (columns : List String) (remove_nan : Bool) :
    Except String (List OracleBatchCall × Nat) :=
  if columns = [] then
    Except.error "columns cannot be empty"
  else if ¬ columns.all (fun c => df.colNames.contains c) then
    Except.error "columns must be a subset of DataFrame columns"
  else if df.isEmptyDf then
    Except.ok ([], 0)
  else
    (_quote_identifier table_name).bind (fun quoted_table =>
    (columns.mapM _quote_identifier).bind (fun quoted_columns =>
      let col_list := ", ".intercalate quoted_columns
      let bind_list := ", ".intercalate (columns.map (fun column => ":" ++ column))
      let df_copy := cleanRows remove_nan (df.select columns)
      let main_dict := df_copy.map (fun r => columns.zip r)
      let query := "INSERT INTO " ++ quoted_table ++ " (" ++ col_list ++ ") VALUES (" ++ bind_list ++ ")"
      Except.ok ([⟨query, main_dict⟩], main_dict.length)))

end AsyncOracleConnection

/-! ## Postgres adapter (`postgres.py`)

Statements are built with `psycopg.sql`: `Identifier` renders each
part double-quoted (embedded quotes doubled) and dot-joined,
`Placeholder()` renders `%s`, `SQL(sep).join` interleaves, and
`SQL(template).format` substitutes the `{}` holes in order.  We model
a composed statement by its rendered text. -/

/-- Rendering of one `psycopg.sql.Identifier` component. -/
def pgQuotePart (s : String) : String :=
  "\"" ++ s.replace "\"" "\"\"" ++ "\""

/-- Rendering of `Identifier(*parts)`. -/
def pgIdentifier (parts : List String) : String :=
  ".".intercalate (parts.map pgQuotePart)

/-- The parameter batch of one Postgres `executemany` call: the sync
and async writers pass either dictionaries (`to_dict('records')`) or
tuples (`itertuples`). -/
inductive PgParams where
  | dicts (rs : List (List (String × Cell)))
  | tuples (rs : List (List Cell))
deriving DecidableEq, Repr

/-- One `executemany` call of the Postgres adapter. -/
structure PgBatchCall where
  query : String
  params : PgParams
deriving DecidableEq, Repr

/-- The conflict action built by `upsert_df_to_warehouse` (postgres.py
lines 382-398): `DO UPDATE SET c = EXCLUDED.c, ...` over the columns
not in `match_cols`, or `DO NOTHING` when none remain. -/
def pgConflictAction (columns match_cols : List String) : String :=
  let update_cols := columns.filter (fun c => ¬ match_cols.contains c)
  if update_cols = [] then
    "DO NOTHING"
  else
    "DO UPDATE SET " ++
      ", ".intercalate (update_cols.map (fun c => pgQuotePart c ++ " = EXCLUDED." ++ pgQuotePart c))

namespace PostgresConnection

/-- `PostgresConnection.remove_matching_data` (postgres.py lines
286-318). -/
def remove_matching_data (df : DataFrame) (table_name : String)
    (match_cols : List String) : Except String (List PgBatchCall × Nat) :=
  if match_cols = [] then
    Except.error "match_cols cannot be empty"
  else if ¬ match_cols.all (fun c => df.colNames.contains c) then
    Except.error "match_cols must be a subset of DataFrame columns"
  else if df.isEmptyDf then
    Except.ok ([], 0)
  else
    let df_subset := dedupFirst (df.select match_cols)
    let param_list := match_cols.map (fun column => column ++ " = %(" ++ column ++ ")s")
    let params := if param_list.length > 1 then " AND ".intercalate param_list else param_list.headD ""
    let table_id := pgIdentifier (table_name.splitOn ".")
    let query := "DELETE FROM " ++ table_id ++ " WHERE " ++ params
    let main_dict := df_subset.map (fun r => match_cols.zip r)
    Except.ok ([⟨query, PgParams.dicts main_dict⟩], main_dict.length)

/-- `PostgresConnection.export_df_to_warehouse` (postgres.py lines
320-355). -/
def export_df_to_warehouse (df : DataFrame) (table_name : String)
    (columns : List String) (remove_nan : Bool) :
    Except String (List PgBatchCall × Nat) :=
  if columns = [] then
    Except.error "columns cannot be empty"
  else if ¬ columns.all (fun c => df.colNames.contains c) then
    Except.error "columns must be a subset of DataFrame columns"
  else if df.isEmptyDf then
    Except.ok ([], 0)
  else
    let col_ids := ", ".intercalate (columns.map pgQuotePart)
    let placeholders := ", ".intercalate (columns.map (fun _ => "%s"))
    let table_id := pgIdentifier (table_name.splitOn ".")
    let records := cleanRows remove_nan (df.select columns)
    let query := "INSERT INTO " ++ table_id ++ " (" ++ col_ids ++ ") VALUES (" ++ placeholders ++ ")"
    Except.ok ([⟨query, PgParams.tuples records⟩], records.length)

/-- `PostgresConnection.upsert_df_to_warehouse` (postgres.py lines
357-411). -/
def upsert_df_to_warehouse (df : DataFrame) (table_name : String)
    (columns match_cols : List String) (remove_nan : Bool) :
    Except String (List PgBatchCall × Nat) :=
  if columns = [] then
    Except.error "columns cannot be empty"
  else if match_cols = [] then
    Except.error "match_cols cannot be empty"
  else if ¬ match_cols.all (fun c => columns.contains c) then
    Except.error "match_cols must be a subset of columns"
  else if df.isEmptyDf then
    Except.ok ([], 0)
  else
    let col_ids := ", ".intercalate (columns.map pgQuotePart)
    let match_ids := ", ".intercalate (match_cols.map pgQuotePart)
    let placeholders := ", ".intercalate (columns.map (fun _ => "%s"))
    let table_id := pgIdentifier (table_name.splitOn ".")
    let conflict_action := pgConflictAction columns match_cols
    let query := "INSERT INTO " ++ table_id ++ " (" ++ col_ids ++ ") VALUES (" ++ placeholders ++
      ") ON CONFLICT (" ++ match_ids ++ ") " ++ conflict_action
    let records := cleanRows remove_nan (df.select columns)
    Except.ok ([⟨query, PgParams.tuples records⟩], records.length)

end PostgresConnection

namespace AsyncPostgresConnection

/-- `AsyncPostgresConnection.remove_matching_data` (postgres.py lines
663-695); the Python body is identical to the blocking variant except
that `execute_many` is awaited. -/
def remove_matching_data (df : DataFrame) (table_name : String)
    (match_cols : List String) : Except String (List PgBatchCall × Nat) :=
  if match_cols = [] then
    Except.error "match_cols cannot be empty"
  else if ¬ match_cols.all (fun c => df.colNames.contains c) then
    Except.error "match_cols must be a subset of DataFrame columns"
  else if df.isEmptyDf then
    Except.ok ([], 0)
  else
    let df_subset := dedupFirst (df.select match_cols)
    let param_list := match_cols.map (fun column => column ++ " = %(" ++ column ++ ")s")
    let params := if param_list.length > 1 then " AND ".intercalate param_list else param_list.headD ""
    let table_id := pgIdentifier (table_name.splitOn ".")
    let query := "DELETE FROM " ++ table_id ++ " WHERE " ++ params
    let main_dict := df_subset.map (fun r => match_cols.zip r)
    Except.ok ([⟨query, PgParams.dicts main_dict⟩], main_dict.length)

/-- `AsyncPostgresConnection.export_df_to_warehouse` (postgres.py
lines 697-732); identical body to the blocking variant. -/
def export_df_to_warehouse (df : DataFrame) (table_name : String)
    (columns : List String) (remove_nan : Bool) :
    Except String (List PgBatchCall × Nat) :=
  if columns = [] then
    Except.error "columns cannot be empty"
  else if ¬ columns.all (fun c => df.colNames.contains c) then
    Except.error "columns must be a subset of DataFrame columns"
  else if df.isEmptyDf then
    Except.ok ([], 0)
  else
    let col_ids := ", ".intercalate (columns.map pgQuotePart)
    let placeholders := ", ".intercalate (columns.map (fun _ => "%s"))
    let table_id := pgIdentifier (table_name.splitOn ".")
    let records := cleanRows remove_nan (df.select columns)
    let query := "INSERT INTO " ++ table_id ++ " (" ++ col_ids ++ ") VALUES (" ++ placeholders ++ ")"
    Except.ok ([⟨query, PgParams.tuples records⟩], records.length)

/-- `AsyncPostgresConnection.upsert_df_to_warehouse` (postgres.py
lines 734-788); identical body to the blocking variant. -/
def upsert_df_to_warehouse (df : DataFrame) (table_name : String)
    (columns match_cols : List String) (remove_nan : Bool) :
    Except String (List PgBatchCall × Nat) :=
  if columns = [] then
    Except.error "columns cannot be empty"
  else if match_cols = [] then
    Except.error "match_cols cannot be empty"
  else if ¬ match_cols.all (fun c => columns.contains c) then
    Except.error "match_cols must be a subset of columns"
  else if df.isEmptyDf then
    Except.ok ([], 0)
  else
    let col_ids := ", ".intercalate (columns.map pgQuotePart)
    let match_ids := ", ".intercalate (match_cols.map pgQuotePart)
    let placeholders := ", ".intercalate (columns.map (fun _ => "%s"))
    let table_id := pgIdentifier (table_name.splitOn ".")
    let conflict_action := pgConflictAction columns match_cols
    let query := "INSERT INTO " ++ table_id ++ " (" ++ col_ids ++ ") VALUES (" ++ placeholders ++
      ") ON CONFLICT (" ++ match_ids ++ ") " ++ conflict_action
    let records := cleanRows remove_nan (df.select columns)
    Except.ok ([⟨query, PgParams.tuples records⟩], records.length)

end AsyncPostgresConnection

/-! ## Connection lifecycle

State model of the connection-manager part of `OracleConnection` /
`PostgresConnection`: `__init__`, `set_user`, `_connect`,
`_get_connection`, `close_connection`.  The external driver is
abstracted as available: a driver `connect` call always yields a fresh
healthy connection (resp. an open pool).  `_get_connection` reports
which path it took, so that "silently reconnects" is observable. -/

/-- The argument of `set_user` (a Python dict); `none` models an
absent key, and Python truthiness makes the empty string falsy. -/
structure CredentialsDict where
  UserName : String
  Password : String
  Host : String
  Port : Int
  Service : Option String := none
  SID : Option String := none
  Database : Option String := none
deriving DecidableEq, Repr

/-- Python truthiness of `credentials_dict.get(key)` for a string
value: absent keys and empty strings are falsy. -/
def truthyOpt : Option String → Bool
  | none => false
  | some s => decide (s ≠ "")

/-- A single driver connection; `healthy` models
`connection.is_healthy()` (Oracle) / `not connection.closed`
(Postgres). -/
structure DriverConn where
  healthy : Bool
deriving DecidableEq, Repr

/-- A driver connection pool; `isOpen` is false once the pool has been
closed. -/
structure DriverPool where
  isOpen : Bool
deriving DecidableEq, Repr

/-- The path taken by `_get_connection`. -/
inductive GetConnEvent where
  | pooledAcquire
  | cachedReuse
  | driverReconnect
deriving DecidableEq, Repr

/-- The connection-manager state common to `OracleConnection.__init__`
and `PostgresConnection.__init__` (oracle.py lines 129-145,
postgres.py lines 109-124): stored credentials, the single cached
connection or the pool, and the retry configuration. -/
structure ManagerState where
  use_pool : Bool
  username : Option String := none
  password : Option String := none
  hostname : Option String := none
  port : Option Int := none
  database : Option String := none
  sid : Option String := none
  connection : Option DriverConn := none
  session_pool : Option DriverPool := none
  retry_limit : Nat := 50
  retry_error_codes : List String := []
deriving DecidableEq, Repr

namespace ManagerState

/-- `OracleConnection.__init__(use_pool, ...)`. -/
def oracleInit (use_pool : Bool) : ManagerState :=
  { use_pool := use_pool, retry_limit := 50, retry_error_codes := oracle_retry_codes }

/-- `PostgresConnection.__init__(use_pool, ...)`. -/
def postgresInit (use_pool : Bool) : ManagerState :=
  { use_pool := use_pool, retry_limit := 50, retry_error_codes := postgres_retry_codes }

/-- `AsyncOracleConnection.__init__(use_pool, ...)` (oracle.py lines
450-467). -/
def asyncOracleInit (use_pool : Bool) : ManagerState :=
  { use_pool := use_pool, retry_limit := 50, retry_error_codes := oracle_retry_codes }

/-- `AsyncPostgresConnection.__init__(use_pool, ...)` (postgres.py
lines 486-501). -/
def asyncPostgresInit (use_pool : Bool) : ManagerState :=
  { use_pool := use_pool, retry_limit := 50, retry_error_codes := postgres_retry_codes }

/-- `_connect` (oracle.py lines 147-163, postgres.py lines 126-142)
with the driver abstracted as succeeding: store a fresh open pool in
pooled mode, a fresh healthy connection in single mode. -/
def connect (st : ManagerState) : ManagerState :=
  if st.use_pool then
    { st with session_pool := some ⟨true⟩ }
  else
    { st with connection := some ⟨true⟩ }

/-- `_get_connection` (oracle.py lines 165-177, postgres.py lines
144-157): pooled mode acquires from the pool (raising if the pool was
never created or has been closed); single mode reuses the cached
connection when it is healthy and otherwise calls `_connect` first. -/
def get_connection (st : ManagerState) :
    Except String (ManagerState × GetConnEvent) :=
  if st.use_pool then
    match st.session_pool with
    | none => Except.error "AttributeError: 'NoneType' object has no attribute 'acquire'"
    | some p =>
      if p.isOpen then Except.ok (st, GetConnEvent.pooledAcquire)
      else Except.error "the connection pool is closed"
  else
    match st.connection with
    | some c =>
      if c.healthy then Except.ok (st, GetConnEvent.cachedReuse)
      else Except.ok (st.connect, GetConnEvent.driverReconnect)
    | none => Except.ok (st.connect, GetConnEvent.driverReconnect)

/-- `OracleConnection.set_user` (oracle.py lines 179-197): require a
truthy `Service` or `SID`, store the credentials, connect. -/
def oracle_set_user (st : ManagerState) (cd : CredentialsDict) :
    Except String ManagerState :=
  if ¬ (truthyOpt cd.Service || truthyOpt cd.SID) then
    Except.error "Either Service or SID must be provided"
  else
    Except.ok ({ st with
      username := some cd.UserName
      password := some cd.Password
      hostname := some cd.Host
      port := some cd.Port
      database := cd.Service
      sid := cd.SID }.connect)

/-- `close_connection` (oracle.py lines 199-211, postgres.py lines
175-187): pooled mode closes the pool (raising if it was never
created); single mode closes and clears the cached connection. -/
def close_connection (st : ManagerState) : Except String ManagerState :=
  if st.use_pool then
    match st.session_pool with
    | none => Except.error "AttributeError: 'NoneType' object has no attribute 'close'"
    | some _ => Except.ok { st with session_pool := some ⟨false⟩ }
  else
    Except.ok { st with connection := none }

end ManagerState

/-- How a bound cell may relate to the source cell under the
missing-value normalization with flag `remove_nan`: an empty-string
cell is always bound as NULL; a NaN/NaT cell is bound as NULL exactly
when the flag is set and is bound unchanged otherwise. -/
def cellNormRel (remove_nan : Bool) (a b : Cell) : Prop :=
  (a = Cell.vStr "" → b = Cell.vNull) ∧
  (remove_nan = false → (a = Cell.vNaN → b = Cell.vNaN) ∧ (a = Cell.vNaT → b = Cell.vNaT)) ∧
  (remove_nan = true → (a = Cell.vNaN → b = Cell.vNull) ∧ (a = Cell.vNaT → b = Cell.vNull))

/-! ## Lemmas about the retry loop -/

theorem retryLoop_nil {α : Type} (codes : List String) (limit count : Nat) :
    retryLoop (α := α) codes limit count [] = none := rfl

theorem retryLoop_ok {α : Type} (codes : List String) (limit count : Nat)
    (v : α) (rest : List (CallResult α)) :
    retryLoop codes limit count (CallResult.ok v :: rest) = some (Except.ok v, []) := rfl

theorem retryLoop_plain {α : Type} (codes : List String) (limit count : Nat)
    (s : String) (rest : List (CallResult α)) :
    retryLoop codes limit count (CallResult.raise (PyErr.plainMsg s) :: rest)
      = some (Except.error (PyErr.plainMsg s), []) := rfl

theorem retryLoop_coded {α : Type} (codes : List String) (limit count : Nat)
    (code msg : String) (rest : List (CallResult α)) :
    retryLoop codes limit count (CallResult.raise (PyErr.coded code msg) :: rest)
      = if code ∈ codes ∧ count < limit then
          (retryLoop codes limit (count + 1) rest).map (fun o => (o.1, 300 :: o.2))
        else
          some (Except.error (PyErr.coded code msg), []) := rfl

/-- Running the retry loop through `N` consecutive transient-coded
failures, provided the attempt budget is not exceeded, advances the
count by `N`, performs `N` fixed 300-second sleeps, and continues with
the rest of the trace. -/
theorem retryLoop_replicate_coded {α : Type} (codes : List String) (limit : Nat)
    (code msg : String) (hc : code ∈ codes) :
    ∀ (N count : Nat), count + N ≤ limit → ∀ (rest : List (CallResult α)),
      retryLoop codes limit count
          (List.replicate N (CallResult.raise (PyErr.coded code msg)) ++ rest)
        = (retryLoop codes limit (count + N) rest).map
            (fun o => (o.1, List.replicate N 300 ++ o.2)) := by
  intro N
  induction N with
  | zero =>
    intro count _ rest
    simp
  | succ n ih =>
    intro count h rest
    have hlt : count < limit := by omega
    rw [List.replicate_succ, List.cons_append, retryLoop_coded,
      if_pos ⟨hc, hlt⟩, ih (count + 1) (by omega) rest, Option.map_map]
    have : count + 1 + n = count + (n + 1) := by omega
    rw [this]
    rfl

/-! ## Lemmas about `drop_duplicates(keep='first')` -/

theorem mem_dedupSeen {α : Type} [DecidableEq α] :
    ∀ (l seen : List α) (a : α), a ∈ dedupSeen seen l ↔ a ∈ l ∧ a ∉ seen
  | [], seen, a => by simp [dedupSeen]
  | x :: l, seen, a => by
    rw [dedupSeen]
    by_cases hx : x ∈ seen
    · rw [if_pos hx, mem_dedupSeen l seen a]
      constructor
      · rintro ⟨h1, h2⟩
        exact ⟨List.mem_cons_of_mem x h1, h2⟩
      · rintro ⟨h1, h2⟩
        rcases List.mem_cons.1 h1 with rfl | h1
        · exact absurd hx h2
        · exact ⟨h1, h2⟩
    · rw [if_neg hx]
      simp only [List.mem_cons, mem_dedupSeen l (x :: seen) a]
      constructor
      · rintro (rfl | ⟨h1, h2⟩)
        · exact ⟨Or.inl rfl, hx⟩
        · exact ⟨Or.inr h1, fun hs => h2 (Or.inr hs)⟩
      · rintro ⟨rfl | h1, h2⟩
        · exact Or.inl rfl
        · by_cases hax : a = x
          · exact Or.inl hax
          · exact Or.inr ⟨h1, fun h => h.elim hax h2⟩

theorem dedupSeen_nodup {α : Type} [DecidableEq α] :
    ∀ (l seen : List α), (dedupSeen seen l).Nodup
  | [], seen => by simp [dedupSeen]
  | x :: l, seen => by
    rw [dedupSeen]
    by_cases hx : x ∈ seen
    · rw [if_pos hx]
      exact dedupSeen_nodup l seen
    · rw [if_neg hx]
      refine List.nodup_cons.2 ⟨?_, dedupSeen_nodup l (x :: seen)⟩
      intro hmem
      exact ((mem_dedupSeen l (x :: seen) x).1 hmem).2 (List.mem_cons_self x seen)

theorem mem_dedupFirst {α : Type} [DecidableEq α] (l : List α) (a : α) :
    a ∈ dedupFirst l ↔ a ∈ l := by
  rw [dedupFirst, mem_dedupSeen]
  simp

theorem dedupFirst_nodup {α : Type} [DecidableEq α] (l : List α) :
    (dedupFirst l).Nodup :=
  dedupSeen_nodup l []

theorem toFinset_dedupFirst {α : Type} [DecidableEq α] (l : List α) :
    (dedupFirst l).toFinset = l.toFinset := by
  ext a
  simp [List.mem_toFinset, mem_dedupFirst]

theorem length_dedupFirst {α : Type} [DecidableEq α] (l : List α) :
    (dedupFirst l).length = l.toFinset.card := by
  rw [← List.toFinset_card_of_nodup (dedupFirst_nodup l), toFinset_dedupFirst]

/-- `Forall₂` relates a list to its image under a map whenever the
relation holds pointwise on members. -/
theorem forall₂_map_self {α β : Type} {R : α → β → Prop} (f : α → β) :
    ∀ (l : List α), (∀ a ∈ l, R a (f a)) → List.Forall₂ R l (l.map f)
  | [], _ => List.Forall₂.nil
  | x :: l, h => by
    exact List.Forall₂.cons (h x (List.mem_cons_self x l))
      (forall₂_map_self f l (fun a ha => h a (List.mem_cons_of_mem x ha)))

/-! ## Lemmas about the writers' shared plumbing -/

theorem length_cleanRows (remove_nan : Bool) (rows : List (List Cell)) :
    (cleanRows remove_nan rows).length = rows.length := by
  cases remove_nan <;> simp [cleanRows]

theorem length_select (df : DataFrame) (cols : List String) :
    (df.select cols).length = df.rows.length := by
  simp [DataFrame.select]

theorem length_mem_select (df : DataFrame) (cols : List String) :
    ∀ r ∈ df.select cols, r.length = cols.length := by
  intro r hr
  simp only [DataFrame.select, List.mem_map] at hr
  obtain ⟨row, _, rfl⟩ := hr
  simp

/-- The two retry loops share the classification, counting and limit
logic exactly. -/
theorem retryLoop_eq_asyncRetryLoop {α : Type} (codes : List String) (limit : Nat) :
    ∀ (trace : List (CallResult α)) (count : Nat),
      retryLoop codes limit count trace = asyncRetryLoop codes limit count trace := by
  intro trace
  induction trace with
  | nil => intro count; rfl
  | cons hd tl ih =>
    intro count
    cases hd with
    | ok v => rfl
    | raise e =>
      cases e with
      | plainMsg s => rfl
      | coded code msg =>
        rw [retryLoop_coded]
        rw [show asyncRetryLoop codes limit count (CallResult.raise (PyErr.coded code msg) :: tl)
            = if code ∈ codes ∧ count < limit then
                (asyncRetryLoop codes limit (count + 1) tl).map (fun o => (o.1, 300 :: o.2))
              else some (Except.error (PyErr.coded code msg), []) from rfl]
        rw [ih (count + 1)]

/-- Cell-wise effect of the normalization pipeline. -/
theorem cellNormRel_clean (remove_nan : Bool) (a : Cell) :
    cellNormRel remove_nan a (replaceEmptyStr (if remove_nan then replaceNanNat a else a)) := by
  cases remove_nan <;> cases a <;>
    simp only [cellNormRel, replaceEmptyStr, replaceNanNat, if_true, if_false] <;>
    refine ⟨?_, ?_, ?_⟩ <;> intro h <;> simp_all [replaceEmptyStr, replaceNanNat]

/-- Row-of-rows form of the normalization pipeline. -/
theorem cleanRows_eq_map (remove_nan : Bool) (rows : List (List Cell)) :
    cleanRows remove_nan rows
      = rows.map (List.map (fun a => replaceEmptyStr (if remove_nan then replaceNanNat a else a))) := by
  cases remove_nan <;> simp [cleanRows, List.map_map, Function.comp]

/-- The normalization pipeline relates every row to its source row,
cell by cell. -/
theorem forall₂_cleanRows (remove_nan : Bool) (rows : List (List Cell)) :
    List.Forall₂ (List.Forall₂ (cellNormRel remove_nan)) rows (cleanRows remove_nan rows) := by
  rw [cleanRows_eq_map]
  refine forall₂_map_self _ rows (fun r _ => ?_)
  exact forall₂_map_self _ r (fun a _ => cellNormRel_clean remove_nan a)

/-- The bind-dictionary list built by `remove_matching_data` from the
deduplicated key projection: it has no duplicates, contains the
dictionary of every projected row, and its length is the number of
distinct key tuples. -/
theorem dedup_zip_binds (match_cols : List String) (sel : List (List Cell))
    (hlen : ∀ r ∈ sel, r.length = match_cols.length) :
    ((dedupFirst sel).map (fun r => match_cols.zip r)).Nodup ∧
    (∀ r ∈ sel, match_cols.zip r ∈ (dedupFirst sel).map (fun r => match_cols.zip r)) ∧
    ((dedupFirst sel).map (fun r => match_cols.zip r)).length = sel.toFinset.card := by
  refine ⟨?_, ?_, ?_⟩
  · refine List.Nodup.map_on ?_ (dedupFirst_nodup sel)
    intro x hx y hy hxy
    have hx' := (mem_dedupFirst sel x).1 hx
    have hy' := (mem_dedupFirst sel y).1 hy
    have hxl : x.length ≤ match_cols.length := le_of_eq (hlen x hx')
    have hyl : y.length ≤ match_cols.length := le_of_eq (hlen y hy')
    calc x = (match_cols.zip x).map Prod.snd := (List.map_snd_zip _ _ hxl).symm
      _ = (match_cols.zip y).map Prod.snd := by rw [hxy]
      _ = y := List.map_snd_zip _ _ hyl
  · intro r hr
    exact List.mem_map_of_mem _ ((mem_dedupFirst sel r).2 hr)
  · rw [List.length_map, length_dedupFirst]

/-! ## Claim theorems -/

/-- C1: For every retry-wrapped operation: a call raising transient
errors (structured code in `retry_error_codes`) is retried after a
fixed 300-second wait, `min(N, retry_limit)` times — `N` consecutive
transient failures followed by success give `N` waits and the success
value when `N ≤ retry_limit`, and `retry_limit + 1` consecutive
transient failures give `retry_limit` waits and re-raise the original
error; an error whose code is not in `retry_error_codes`, or one
carrying only a plain string, is re-raised immediately with zero
retries; both adapters default `retry_limit` to 50 with their
backend's code list. -/
theorem claim_C1_retry_policy :
    (∀ (α : Type) (codes : List String) (limit : Nat) (code msg : String) (v : α) (N : Nat),
      code ∈ codes → N ≤ limit →
      retryRun codes limit
          (List.replicate N (CallResult.raise (PyErr.coded code msg)) ++ [CallResult.ok v])
        = some (Except.ok v, List.replicate N 300)) ∧
    (∀ (α : Type) (codes : List String) (limit : Nat) (code msg : String),
      code ∈ codes →
      retryRun (α := α) codes limit
          (List.replicate (limit + 1) (CallResult.raise (PyErr.coded code msg)))
        = some (Except.error (PyErr.coded code msg), List.replicate limit 300)) ∧
    (∀ (α : Type) (codes : List String) (limit : Nat) (code msg : String)
        (rest : List (CallResult α)),
      code ∉ codes →
      retryRun codes limit (CallResult.raise (PyErr.coded code msg) :: rest)
        = some (Except.error (PyErr.coded code msg), [])) ∧
    (∀ (α : Type) (codes : List String) (limit : Nat) (s : String)
        (rest : List (CallResult α)),
      retryRun codes limit (CallResult.raise (PyErr.plainMsg s) :: rest)
        = some (Except.error (PyErr.plainMsg s), [])) ∧
    (∀ b, (ManagerState.oracleInit b).retry_limit = 50 ∧
      (ManagerState.oracleInit b).retry_error_codes = oracle_retry_codes ∧
      (ManagerState.postgresInit b).retry_limit = 50 ∧
      (ManagerState.postgresInit b).retry_error_codes = postgres_retry_codes) := by
  refine ⟨?_, ?_, ?_, ?_, ?_⟩
  · intro α codes limit code msg v N hc hN
    rw [retryRun, retryLoop_replicate_coded codes limit code msg hc N 0 (by omega),
      retryLoop_ok]
    simp
  · intro α codes limit code msg hc
    rw [retryRun, List.replicate_succ', retryLoop_replicate_coded codes limit code msg hc limit 0
      (by omega), retryLoop_coded, if_neg (by omega)]
    simp
  · intro α codes limit code msg rest hc
    rw [retryRun, retryLoop_coded, if_neg (by simp [hc])]
  · intro α codes limit s rest
    rfl
  · intro b
    exact ⟨rfl, rfl, rfl, rfl⟩

/-- C1 witness: the retry policy at concrete inputs. -/
theorem claim_C1_retry_policy_witness :
    retryRun oracle_retry_codes 50
        (List.replicate 3 (CallResult.raise (PyErr.coded "ORA-01033" "init")) ++
          [CallResult.ok (7 : Nat)])
      = some (Except.ok 7, List.replicate 3 300) ∧
    retryRun (α := Nat) postgres_retry_codes 50
        (CallResult.raise (PyErr.coded "42P01" "missing table") :: [])
      = some (Except.error (PyErr.coded "42P01" "missing table"), []) :=
  ⟨claim_C1_retry_policy.1 Nat oracle_retry_codes 50 "ORA-01033" "init" 7 3
      (by decide) (by decide),
    claim_C1_retry_policy.2.2.1 Nat postgres_retry_codes 50 "42P01" "missing table" []
      (by decide)⟩

/-- C3: Every export variant whose requested columns are a non-empty
subset of the frame's columns returns 0 for a zero-row table and
issues no batch statement (the emitted driver-call list is empty). -/
theorem claim_C3_empty_export_noop :
    ∀ (df : DataFrame) (table : String) (cols : List String) (remove_nan : Bool),
      cols ≠ [] → (∀ c ∈ cols, c ∈ df.colNames) → df.rows = [] →
      OracleConnection.export_df_to_warehouse df table cols remove_nan = Except.ok ([], 0) ∧
      AsyncOracleConnection.export_df_to_warehouse df table cols remove_nan = Except.ok ([], 0) ∧
      PostgresConnection.export_df_to_warehouse df table cols remove_nan = Except.ok ([], 0) ∧
      AsyncPostgresConnection.export_df_to_warehouse df table cols remove_nan = Except.ok ([], 0) := by
  intro df table cols remove_nan hne hsub hrows
  have hall : cols.all (fun c => df.colNames.contains c) = true := by
    rw [List.all_eq_true]
    intro c hc
    simpa using hsub c hc
  have hempty : df.isEmptyDf = true := by
    simp [DataFrame.isEmptyDf, hrows]
  refine ⟨?_, ?_, ?_, ?_⟩ <;>
    simp [OracleConnection.export_df_to_warehouse,
      AsyncOracleConnection.export_df_to_warehouse,
      PostgresConnection.export_df_to_warehouse,
      AsyncPostgresConnection.export_df_to_warehouse, hne, hall, hempty] <;>
    exact hsub

/-- C3 witness: a concrete zero-row table. -/
theorem claim_C3_empty_export_noop_witness :
    OracleConnection.export_df_to_warehouse ⟨["A"], []⟩ "T" ["A"] false = Except.ok ([], 0) ∧
    PostgresConnection.export_df_to_warehouse ⟨["A"], []⟩ "T" ["A"] false = Except.ok ([], 0) :=
  ⟨(claim_C3_empty_export_noop ⟨["A"], []⟩ "T" ["A"] false (by decide) (by decide) rfl).1,
    (claim_C3_empty_export_noop ⟨["A"], []⟩ "T" ["A"] false (by decide) (by decide) rfl).2.2.1⟩

/-- C9: The blocking and suspend-based variants behave identically:
the two retry decorators compute the same classification, count,
limit and wait schedule on every trace, the sync and async writer
pairs of both adapters build the same statements and return the same
values on all inputs, and the sync and async constructors install the
same retry configuration. -/
theorem claim_C9_sync_async_equivalence :
    (∀ (α : Type) (codes : List String) (limit : Nat) (trace : List (CallResult α)),
      retryRun codes limit trace = asyncRetryRun codes limit trace) ∧
    (∀ df table cols remove_nan,
      OracleConnection.export_df_to_warehouse df table cols remove_nan
        = AsyncOracleConnection.export_df_to_warehouse df table cols remove_nan) ∧
    (∀ df table match_cols,
      OracleConnection.remove_matching_data df table match_cols
        = AsyncOracleConnection.remove_matching_data df table match_cols) ∧
    (∀ df table cols remove_nan,
      PostgresConnection.export_df_to_warehouse df table cols remove_nan
        = AsyncPostgresConnection.export_df_to_warehouse df table cols remove_nan) ∧
    (∀ df table match_cols,
      PostgresConnection.remove_matching_data df table match_cols
        = AsyncPostgresConnection.remove_matching_data df table match_cols) ∧
    (∀ df table cols match_cols remove_nan,
      PostgresConnection.upsert_df_to_warehouse df table cols match_cols remove_nan
        = AsyncPostgresConnection.upsert_df_to_warehouse df table cols match_cols remove_nan) ∧
    (∀ b, ManagerState.oracleInit b = ManagerState.asyncOracleInit b ∧
      ManagerState.postgresInit b = ManagerState.asyncPostgresInit b) := by
  refine ⟨?_, ?_, ?_, ?_, ?_, ?_, ?_⟩
  · intro α codes limit trace
    exact retryLoop_eq_asyncRetryLoop codes limit trace 0
  · intro df table cols remove_nan; rfl
  · intro df table match_cols; rfl
  · intro df table cols remove_nan; rfl
  · intro df table match_cols; rfl
  · intro df table cols match_cols remove_nan; rfl
  · intro b; exact ⟨rfl, rfl⟩

/-- C4: For a Postgres upsert with valid non-empty column sets and a
non-empty frame: if every column is a match column the built conflict
clause is `DO NOTHING`; if the match columns are a proper subset, the
clause is `DO UPDATE SET` over exactly the non-match columns (each
assigned from `EXCLUDED`); and the call returns the number of input
rows, with the built statement ending in the conflict clause. -/
theorem claim_C4_upsert_conflict_clause :
    ∀ (df : DataFrame) (table : String) (columns match_cols : List String) (remove_nan : Bool),
      columns ≠ [] → match_cols ≠ [] → (∀ c ∈ match_cols, c ∈ columns) → df.rows ≠ [] →
      ((∀ c ∈ columns, c ∈ match_cols) → pgConflictAction columns match_cols = "DO NOTHING") ∧
      ((∃ c ∈ columns, c ∉ match_cols) →
        ∃ upd : List String,
          (∀ c, c ∈ upd ↔ (c ∈ columns ∧ c ∉ match_cols)) ∧
          pgConflictAction columns match_cols
            = "DO UPDATE SET " ++
              ", ".intercalate (upd.map (fun c => pgQuotePart c ++ " = EXCLUDED." ++ pgQuotePart c))) ∧
      (∃ pre ps,
        PostgresConnection.upsert_df_to_warehouse df table columns match_cols remove_nan
          = Except.ok ([⟨pre ++ pgConflictAction columns match_cols, ps⟩], df.rows.length)) := by
  intro df table columns match_cols remove_nan hcne hmne hsub hrows
  have hall : match_cols.all (fun c => columns.contains c) = true := by
    rw [List.all_eq_true]
    intro c hc
    simpa using hsub c hc
  have hempty : df.isEmptyDf = false := by
    simp [DataFrame.isEmptyDf, hrows]
  refine ⟨?_, ?_, ?_⟩
  · intro hcover
    have hf : columns.filter (fun c => ¬ match_cols.contains c) = [] := by
      rw [List.filter_eq_nil_iff]
      intro c hc
      simpa using hcover c hc
    rw [pgConflictAction]
    rw [if_pos hf]
  · intro hproper
    refine ⟨columns.filter (fun c => ¬ match_cols.contains c), ?_, ?_⟩
    · intro c
      simp [List.mem_filter]
    · have hf : columns.filter (fun c => ¬ match_cols.contains c) ≠ [] := by
        obtain ⟨c, hc, hnc⟩ := hproper
        intro hnil
        rw [List.filter_eq_nil_iff] at hnil
        have := hnil c hc
        simp at this
        exact hnc this
      rw [pgConflictAction]
      rw [if_neg hf]
  · refine ⟨"INSERT INTO " ++ pgIdentifier (table.splitOn ".") ++ " (" ++
      ", ".intercalate (columns.map pgQuotePart) ++ ") VALUES (" ++
      ", ".intercalate (columns.map (fun _ => "%s")) ++ ") ON CONFLICT (" ++
      ", ".intercalate (match_cols.map pgQuotePart) ++ ") ",
      PgParams.tuples (cleanRows remove_nan (df.select columns)), ?_⟩
    rw [PostgresConnection.upsert_df_to_warehouse, if_neg (by simp [hcne]),
      if_neg (by simp [hmne]), if_neg (by simp; exact hsub), if_neg (by simp [hempty])]
    simp only [length_cleanRows, length_select]

/-- C4 witness: concrete upserts in the `DO NOTHING` and
`DO UPDATE SET` configurations. -/
theorem claim_C4_upsert_conflict_clause_witness :
    pgConflictAction ["A", "B"] ["A", "B"] = "DO NOTHING" ∧
    (∃ upd : List String,
      (∀ c, c ∈ upd ↔ (c ∈ ["A", "B"] ∧ c ∉ ["A"])) ∧
      pgConflictAction ["A", "B"] ["A"]
        = "DO UPDATE SET " ++
          ", ".intercalate (upd.map (fun c => pgQuotePart c ++ " = EXCLUDED." ++ pgQuotePart c))) :=
  ⟨(claim_C4_upsert_conflict_clause ⟨["A", "B"], [[Cell.vInt 1, Cell.vInt 2]]⟩ "t"
      ["A", "B"] ["A", "B"] false (by decide) (by decide) (by decide) (by decide)).1
      (by decide),
    (claim_C4_upsert_conflict_clause ⟨["A", "B"], [[Cell.vInt 1, Cell.vInt 2]]⟩ "t"
      ["A", "B"] ["A"] false (by decide) (by decide) (by decide) (by decide)).2.1
      ⟨"B", by decide, by decide⟩⟩

/-- C5: `remove_matching_data` with valid non-empty match columns and
a non-empty frame deduplicates the input on the match columns first:
the single issued batch carries exactly one bind dictionary per
distinct match-column tuple (no duplicates, every projected row's
dictionary present), and the returned value is the number of distinct
key tuples — not the number of input rows. -/
theorem claim_C5_remove_matching_dedup :
    ∀ (df : DataFrame) (table : String) (match_cols : List String),
      match_cols ≠ [] → (∀ c ∈ match_cols, c ∈ df.colNames) → df.rows ≠ [] →
      (∀ calls n,
        OracleConnection.remove_matching_data df table match_cols = Except.ok (calls, n) →
        ∃ q binds, calls = [⟨q, binds⟩] ∧ binds.Nodup ∧
          (∀ r ∈ df.select match_cols, match_cols.zip r ∈ binds) ∧
          binds.length = (df.select match_cols).toFinset.card ∧
          n = (df.select match_cols).toFinset.card) ∧
      (∀ calls n,
        PostgresConnection.remove_matching_data df table match_cols = Except.ok (calls, n) →
        ∃ q binds, calls = [⟨q, PgParams.dicts binds⟩] ∧ binds.Nodup ∧
          (∀ r ∈ df.select match_cols, match_cols.zip r ∈ binds) ∧
          binds.length = (df.select match_cols).toFinset.card ∧
          n = (df.select match_cols).toFinset.card) := by
  intro df table match_cols hmne hsub hrows
  have hempty : df.isEmptyDf = false := by
    simp [DataFrame.isEmptyDf, hrows]
  obtain ⟨hnodup, hmem, hlen⟩ :=
    dedup_zip_binds match_cols (df.select match_cols) (length_mem_select df match_cols)
  constructor
  · intro calls n hok
    rw [OracleConnection.remove_matching_data, if_neg (by simp [hmne]),
      if_neg (by simp; exact hsub), if_neg (by simp [hempty])] at hok
    cases hq : _quote_identifier table with
    | error e =>
      rw [hq] at hok
      exact absurd hok (by simp [Except.bind])
    | ok qt =>
      rw [hq] at hok
      simp only [Except.bind, Except.ok.injEq, Prod.mk.injEq] at hok
      obtain ⟨hcalls, hn⟩ := hok
      refine ⟨_, _, hcalls.symm, hnodup, hmem, hlen, ?_⟩
      rw [← hn, List.length_map, length_dedupFirst]
  · intro calls n hok
    rw [PostgresConnection.remove_matching_data, if_neg (by simp [hmne]),
      if_neg (by simp; exact hsub), if_neg (by simp [hempty])] at hok
    simp only [Except.ok.injEq, Prod.mk.injEq] at hok
    obtain ⟨hcalls, hn⟩ := hok
    refine ⟨_, _, hcalls.symm, hnodup, hmem, hlen, ?_⟩
    rw [← hn, List.length_map, length_dedupFirst]

/-- C5 witness: a concrete frame with a duplicated key tuple yields a
single batch of two distinct dictionaries and returns 2. -/
theorem claim_C5_remove_matching_dedup_witness :
    ∃ q binds,
      ([⟨q, binds⟩] : List OracleBatchCall) =
        [⟨q, binds⟩] ∧ binds.Nodup ∧
      (∀ r ∈ (DataFrame.mk ["K"] [[Cell.vInt 1], [Cell.vInt 1], [Cell.vInt 2]]).select ["K"],
        ["K"].zip r ∈ binds) ∧
      binds.length =
        ((DataFrame.mk ["K"] [[Cell.vInt 1], [Cell.vInt 1], [Cell.vInt 2]]).select ["K"]).toFinset.card ∧
      2 = ((DataFrame.mk ["K"] [[Cell.vInt 1], [Cell.vInt 1], [Cell.vInt 2]]).select ["K"]).toFinset.card := by
  have h := (claim_C5_remove_matching_dedup
      (DataFrame.mk ["K"] [[Cell.vInt 1], [Cell.vInt 1], [Cell.vInt 2]]) "T" ["K"]
      (by decide) (by decide) (by decide)).1
      [⟨"DELETE FROM \"T\" WHERE K = :K", [[("K", Cell.vInt 1)], [("K", Cell.vInt 2)]]⟩] 2
      rfl
  obtain ⟨q, binds, hc, hnd, hm, hl, hn⟩ := h
  exact ⟨q, binds, rfl, hnd, hm, hl, hn⟩

/-- C7: The Oracle scenario: `set_user` accepts the credentials
`{UserName: "svc", Password: "x", Host: "db1", Port: 1521, Service:
"ORCL"}` (a truthy `Service` is present) and connects, and exporting
the single row `{"ID": 1, "NAME": "a"}` of columns `["ID", "NAME"]`
to table `"STAGE.ITEMS"` returns 1 with the batch statement exactly
`INSERT INTO "STAGE"."ITEMS" ("ID", "NAME") VALUES (:ID, :NAME)`. -/
theorem claim_C7_oracle_scenario :
    (∃ st, ManagerState.oracle_set_user (ManagerState.oracleInit false)
        { UserName := "svc", Password := "x", Host := "db1", Port := 1521,
          Service := some "ORCL" }
        = Except.ok st ∧ st.connection = some ⟨true⟩) ∧
    OracleConnection.export_df_to_warehouse
        ⟨["ID", "NAME"], [[Cell.vInt 1, Cell.vStr "a"]]⟩ "STAGE.ITEMS" ["ID", "NAME"] false
      = Except.ok
          ([⟨"INSERT INTO \"STAGE\".\"ITEMS\" (\"ID\", \"NAME\") VALUES (:ID, :NAME)",
            [[("ID", Cell.vInt 1), ("NAME", Cell.vStr "a")]]⟩], 1) := by
  constructor
  · exact ⟨_, rfl, rfl⟩
  · rfl

/-- C6 counterexample: a single-mode manager that connected via
`set_user` and was then closed silently reconnects on the next query's
`_get_connection`: the call succeeds and performs a fresh driver
connect, with no intervening `set_user` or explicit reconnect —
refuting "the manager never silently auto-resurrects a closed
connection on a subsequent query call (in single mode as well as
pooled mode)". -/
theorem claim_C6_counterexample :
    ∃ st1 st2,
      ManagerState.oracle_set_user (ManagerState.oracleInit false)
          { UserName := "svc", Password := "x", Host := "db1", Port := 1521,
            Service := some "ORCL" }
        = Except.ok st1 ∧
      ManagerState.close_connection st1 = Except.ok st2 ∧
      ManagerState.get_connection st2
        = Except.ok (st2.connect, GetConnEvent.driverReconnect) := by
  exact ⟨_, _, rfl, rfl, rfl⟩

/-- C6 amended: after `close_connection`, a pooled manager raises on
any further `_get_connection` until a new pool is created, but a
single-mode manager silently re-establishes a connection on the next
query call (lazy reconnect through `_connect`), with no `set_user`
required. -/
theorem claim_C6_amended :
    (∀ st st', st.use_pool = true →
      ManagerState.close_connection st = Except.ok st' →
      ∃ e, ManagerState.get_connection st' = Except.error e) ∧
    (∀ st st', st.use_pool = false →
      ManagerState.close_connection st = Except.ok st' →
      ManagerState.get_connection st'
        = Except.ok (st'.connect, GetConnEvent.driverReconnect)) := by
  constructor
  · intro st st' hpool hclose
    rw [ManagerState.close_connection, if_pos hpool] at hclose
    cases hp : st.session_pool with
    | none => rw [hp] at hclose; exact absurd hclose (by simp)
    | some p =>
      rw [hp] at hclose
      simp only [Except.ok.injEq] at hclose
      refine ⟨"the connection pool is closed", ?_⟩
      rw [ManagerState.get_connection, ← hclose]
      simp [hpool]
  · intro st st' hpool hclose
    rw [ManagerState.close_connection, if_neg (by simp [hpool])] at hclose
    simp only [Except.ok.injEq] at hclose
    rw [ManagerState.get_connection, ← hclose]
    simp [hpool]

/-- C6 amended witness: concrete pooled and single-mode managers. -/
theorem claim_C6_amended_witness :
    (∃ e, ManagerState.get_connection
        { ManagerState.oracleInit true with session_pool := some ⟨false⟩ }
      = Except.error e) ∧
    ManagerState.get_connection { ManagerState.oracleInit false with connection := none }
      = Except.ok (({ ManagerState.oracleInit false with connection := none } : ManagerState).connect,
          GetConnEvent.driverReconnect) :=
  ⟨claim_C6_amended.1 { ManagerState.oracleInit true with session_pool := some ⟨true⟩ } _ rfl rfl,
    claim_C6_amended.2 { ManagerState.oracleInit false with connection := none } _ rfl rfl⟩

/-- C10: In every batch the export and upsert writers bind, an
empty-string cell of the input is bound as NULL unconditionally — for
both values of the `remove_nan` flag — while NaN/NaT cells are bound
as NULL exactly when the flag is set and are passed through unchanged
when it is not (`cellNormRel` states precisely this cell-wise
contract). -/
theorem claim_C10_empty_string_always_null :
    (∀ df table cols remove_nan calls n,
      OracleConnection.export_df_to_warehouse df table cols remove_nan = Except.ok (calls, n) →
      ∀ call ∈ calls,
        List.Forall₂ (fun r rec => List.Forall₂ (cellNormRel remove_nan) r (rec.map Prod.snd))
          (df.select cols) call.binds) ∧
    (∀ df table cols remove_nan calls n,
      PostgresConnection.export_df_to_warehouse df table cols remove_nan = Except.ok (calls, n) →
      ∀ call ∈ calls, ∀ rs, call.params = PgParams.tuples rs →
        List.Forall₂ (List.Forall₂ (cellNormRel remove_nan)) (df.select cols) rs) ∧
    (∀ df table cols match_cols remove_nan calls n,
      PostgresConnection.upsert_df_to_warehouse df table cols match_cols remove_nan
        = Except.ok (calls, n) →
      ∀ call ∈ calls, ∀ rs, call.params = PgParams.tuples rs →
        List.Forall₂ (List.Forall₂ (cellNormRel remove_nan)) (df.select cols) rs) := by
  refine ⟨?_, ?_, ?_⟩
  · intro df table cols remove_nan calls n hok call hcall
    rw [OracleConnection.export_df_to_warehouse] at hok
    split_ifs at hok
    · simp only [Except.ok.injEq, Prod.mk.injEq] at hok
      rw [← hok.1] at hcall
      simp only [DataFrame.isEmptyDf, List.isEmpty_iff] at *
      simp at hcall
    · cases hq : _quote_identifier table with
      | error e =>
        rw [hq] at hok
        exact absurd hok (by simp [Except.bind])
      | ok qt =>
        rw [hq] at hok
        cases hm : cols.mapM _quote_identifier with
        | error e =>
          rw [hm] at hok
          exact absurd hok (by simp [Except.bind])
        | ok qcols =>
          rw [hm] at hok
          simp only [Except.bind, Except.ok.injEq, Prod.mk.injEq] at hok
          rw [← hok.1] at hcall
          simp only [List.mem_singleton] at hcall
          subst hcall
          simp only [cleanRows_eq_map, List.map_map]
          refine forall₂_map_self _ (df.select cols) (fun r hr => ?_)
          have hlen : (r.map (fun a =>
              replaceEmptyStr (if remove_nan then replaceNanNat a else a))).length
              = cols.length := by
            rw [List.length_map, length_mem_select df cols r hr]
          rw [Function.comp_apply, List.map_snd_zip _ _ (le_of_eq hlen)]
          exact forall₂_map_self _ r (fun a _ => cellNormRel_clean remove_nan a)
  · intro df table cols remove_nan calls n hok call hcall rs hrs
    rw [PostgresConnection.export_df_to_warehouse] at hok
    split_ifs at hok
    · simp only [Except.ok.injEq, Prod.mk.injEq] at hok
      rw [← hok.1] at hcall
      simp at hcall
    · simp only [Except.ok.injEq, Prod.mk.injEq] at hok
      rw [← hok.1] at hcall
      simp only [List.mem_singleton] at hcall
      subst hcall
      simp only [PgParams.tuples.injEq] at hrs
      rw [← hrs]
      exact forall₂_cleanRows remove_nan (df.select cols)
  · intro df table cols match_cols remove_nan calls n hok call hcall rs hrs
    rw [PostgresConnection.upsert_df_to_warehouse] at hok
    split_ifs at hok
    · simp only [Except.ok.injEq, Prod.mk.injEq] at hok
      rw [← hok.1] at hcall
      simp at hcall
    · simp only [Except.ok.injEq, Prod.mk.injEq] at hok
      rw [← hok.1] at hcall
      simp only [List.mem_singleton] at hcall
      subst hcall
      simp only [PgParams.tuples.injEq] at hrs
      rw [← hrs]
      exact forall₂_cleanRows remove_nan (df.select cols)

/-- C10 witness: a concrete one-row frame holding an empty string and
a NaN, exported with `remove_nan = False`. -/
theorem claim_C10_empty_string_always_null_witness :
    ∀ call ∈ [(⟨"INSERT INTO \"T\" (\"A\", \"B\") VALUES (:A, :B)",
        [[("A", Cell.vNull), ("B", Cell.vNaN)]]⟩ : OracleBatchCall)],
      List.Forall₂ (fun r rec => List.Forall₂ (cellNormRel false) r (rec.map Prod.snd))
        ((DataFrame.mk ["A", "B"] [[Cell.vStr "", Cell.vNaN]]).select ["A", "B"]) call.binds :=
  claim_C10_empty_string_always_null.1
    (DataFrame.mk ["A", "B"] [[Cell.vStr "", Cell.vNaN]]) "T" ["A", "B"] false _ 1 rfl

/-! ## Character lemmas for the identifier grammar -/

theorem char_toNat_inj {a b : Char} (h : a.toNat = b.toNat) : a = b :=
  Char.ext (UInt32.ext h)

theorem char_eq_iff_toNat (a b : Char) : a = b ↔ a.toNat = b.toNat :=
  ⟨fun h => h ▸ rfl, char_toNat_inj⟩

theorem toNat_ofNat_valid {n : Nat} (h : n < 55296) : (Char.ofNat n).toNat = n := by
  rw [Char.ofNat, dif_pos (Or.inl h)]
  rfl

theorem toNat_toUpper (c : Char) :
    (Char.toUpper c).toNat
      = if 97 ≤ c.toNat ∧ c.toNat ≤ 122 then c.toNat - 32 else c.toNat := by
  rw [Char.toUpper]
  by_cases h : 97 ≤ c.toNat ∧ c.toNat ≤ 122
  · rw [if_pos (by exact ⟨h.1, h.2⟩), if_pos h]
    exact toNat_ofNat_valid (by omega)
  · rw [if_neg (by exact fun hc => h ⟨hc.1, hc.2⟩), if_neg h]

theorem isUpper_iff (c : Char) : c.isUpper = true ↔ (65 ≤ c.toNat ∧ c.toNat ≤ 90) := by
  rw [Char.isUpper]
  simp only [Bool.and_eq_true, decide_eq_true_eq, ge_iff_le, UInt32.le_def]
  exact Iff.rfl

theorem isLower_iff (c : Char) : c.isLower = true ↔ (97 ≤ c.toNat ∧ c.toNat ≤ 122) := by
  rw [Char.isLower]
  simp only [Bool.and_eq_true, decide_eq_true_eq, ge_iff_le, UInt32.le_def]
  exact Iff.rfl

theorem isDigit_iff (c : Char) : c.isDigit = true ↔ (48 ≤ c.toNat ∧ c.toNat ≤ 57) := by
  rw [Char.isDigit]
  simp only [Bool.and_eq_true, decide_eq_true_eq, ge_iff_le, UInt32.le_def]
  exact Iff.rfl

theorem isAlpha_iff (c : Char) :
    c.isAlpha = true ↔ ((65 ≤ c.toNat ∧ c.toNat ≤ 90) ∨ (97 ≤ c.toNat ∧ c.toNat ≤ 122)) := by
  rw [Char.isAlpha]
  simp [isUpper_iff, isLower_iff]

theorem toUpper_idem (c : Char) : Char.toUpper (Char.toUpper c) = Char.toUpper c := by
  apply char_toNat_inj
  rw [toNat_toUpper (Char.toUpper c), toNat_toUpper c]
  by_cases h : 97 ≤ c.toNat ∧ c.toNat ≤ 122
  · rw [if_pos h, if_neg (by omega)]
  · rw [if_neg h, if_neg h]

theorem toUpper_isAlpha {c : Char} (h : c.isAlpha = true) :
    (Char.toUpper c).isAlpha = true := by
  rw [isAlpha_iff] at h ⊢
  rw [toNat_toUpper]
  by_cases hl : 97 ≤ c.toNat ∧ c.toNat ≤ 122
  · rw [if_pos hl]; omega
  · rw [if_neg hl]; omega

theorem toUpper_eq_dot_iff (c : Char) : Char.toUpper c = '.' ↔ c = '.' := by
  rw [char_eq_iff_toNat, char_eq_iff_toNat, toNat_toUpper]
  have hdot : ('.').toNat = 46 := rfl
  rw [hdot]
  by_cases hl : 97 ≤ c.toNat ∧ c.toNat ≤ 122
  · rw [if_pos hl]; omega
  · rw [if_neg hl]

theorem identTailOk_iff (c : Char) :
    identTailOk c = true ↔
      ((65 ≤ c.toNat ∧ c.toNat ≤ 90) ∨ (97 ≤ c.toNat ∧ c.toNat ≤ 122) ∨
        (48 ≤ c.toNat ∧ c.toNat ≤ 57) ∨ c.toNat = 95 ∨ c.toNat = 35 ∨ c.toNat = 36) := by
  rw [identTailOk]
  simp only [Bool.or_eq_true, decide_eq_true_eq, isAlpha_iff, isDigit_iff, char_eq_iff_toNat]
  have h1 : ('_').toNat = 95 := rfl
  have h2 : ('#').toNat = 35 := rfl
  have h3 : ('$').toNat = 36 := rfl
  rw [h1, h2, h3]
  tauto

theorem identTailOk_toUpper {c : Char} (h : identTailOk c = true) :
    identTailOk (Char.toUpper c) = true := by
  rw [identTailOk_iff] at h ⊢
  rw [toNat_toUpper]
  by_cases hl : 97 ≤ c.toNat ∧ c.toNat ≤ 122
  · rw [if_pos hl]; omega
  · rw [if_neg hl]; omega

theorem identTailOk_ne_dot {c : Char} (h : identTailOk c = true) : c ≠ '.' := by
  rw [identTailOk_iff] at h
  rw [Ne, char_eq_iff_toNat]
  have hdot : ('.').toNat = 46 := rfl
  rw [hdot]
  omega

theorem identTailOk_ne_quote {c : Char} (h : identTailOk c = true) : c ≠ '"' := by
  rw [identTailOk_iff] at h
  rw [Ne, char_eq_iff_toNat]
  have hq : ('"').toNat = 34 := rfl
  rw [hq]
  omega

theorem toUpper_ne_quote {c : Char} (h : c ≠ '"') : Char.toUpper c ≠ '"' := by
  rw [Ne, char_eq_iff_toNat] at h ⊢
  have hq : ('"').toNat = 34 := rfl
  rw [hq] at h ⊢
  rw [toNat_toUpper]
  by_cases hl : 97 ≤ c.toNat ∧ c.toNat ≤ 122
  · rw [if_pos hl]; omega
  · rw [if_neg hl]; omega

/-! ## Split/join lemmas for the identifier grammar -/

theorem splitDot_ne_nil (l : List Char) : splitDot l ≠ [] := by
  cases l with
  | nil => simp [splitDot]
  | cons c cs =>
    rw [splitDot]
    by_cases hc : c = '.'
    · rw [if_pos hc]; simp
    · rw [if_neg hc]
      cases splitDot cs <;> simp

theorem joinDot_cons_cons (p q : List Char) (ps : List (List Char)) :
    joinDot (p :: q :: ps) = p ++ '.' :: joinDot (q :: ps) := rfl

theorem joinDot_splitDot : ∀ (l : List Char), joinDot (splitDot l) = l
  | [] => rfl
  | c :: cs => by
    rw [splitDot]
    by_cases hc : c = '.'
    · rw [if_pos hc]
      cases hps : splitDot cs with
      | nil => exact absurd hps (splitDot_ne_nil cs)
      | cons q ps =>
        subst hc
        rw [joinDot_cons_cons, ← hps, joinDot_splitDot cs]
        rfl
    · rw [if_neg hc]
      cases hps : splitDot cs with
      | nil => exact absurd hps (splitDot_ne_nil cs)
      | cons p ps =>
        have h := joinDot_splitDot cs
        rw [hps] at h
        cases ps with
        | nil =>
          have hp : p = cs := h
          rw [show joinDot [c :: p] = c :: p from rfl, hp]
        | cons q ps' =>
          rw [joinDot_cons_cons, List.cons_append]
          rw [← joinDot_cons_cons, h]

theorem splitDot_map (f : Char → Char) (hdot : f '.' = '.')
    (hrefl : ∀ c, f c = '.' → c = '.') :
    ∀ (l : List Char), splitDot (l.map f) = (splitDot l).map (List.map f)
  | [] => rfl
  | c :: cs => by
    rw [List.map_cons, splitDot, splitDot]
    by_cases hc : c = '.'
    · subst hc
      rw [if_pos hdot, if_pos rfl, splitDot_map f hdot hrefl cs]
      rfl
    · have hfc : f c ≠ '.' := fun h => hc (hrefl c h)
      rw [if_neg hfc, if_neg hc, splitDot_map f hdot hrefl cs]
      cases hps : splitDot cs with
      | nil => exact absurd hps (splitDot_ne_nil cs)
      | cons p ps => rfl

theorem mem_joinDot :
    ∀ (ps : List (List Char)) (c : Char), c ∈ joinDot ps → (∃ p ∈ ps, c ∈ p) ∨ c = '.'
  | [], c, h => by simp [joinDot] at h
  | [p], c, h => Or.inl ⟨p, by simp, h⟩
  | p :: q :: ps, c, h => by
    rw [joinDot_cons_cons] at h
    rcases List.mem_append.1 h with h1 | h2
    · exact Or.inl ⟨p, by simp, h1⟩
    · rcases List.mem_cons.1 h2 with rfl | h3
      · exact Or.inr rfl
      · rcases mem_joinDot (q :: ps) c h3 with ⟨p', hp', hcp⟩ | hdot
        · exact Or.inl ⟨p', List.mem_cons_of_mem p hp', hcp⟩
        · exact Or.inr hdot

theorem filter_joinDot (q : Char → Bool) (hq : q '.' = true) :
    ∀ (ps : List (List Char)), (joinDot ps).filter q = joinDot (ps.map (List.filter q))
  | [] => rfl
  | [p] => rfl
  | p :: p2 :: ps => by
    rw [joinDot_cons_cons, List.filter_append, List.filter_cons_of_pos hq,
      filter_joinDot q hq (p2 :: ps)]
    rfl

/-! ## Part and grammar lemmas -/

theorem partOk_mem {p : List Char} (h : partOk p = true) :
    ∀ c ∈ p, identTailOk c = true := by
  cases p with
  | nil => simp [partOk] at h
  | cons x xs =>
    rw [partOk, Bool.and_eq_true] at h
    intro c hc
    rcases List.mem_cons.1 hc with rfl | hc
    · rw [identTailOk]
      simp [h.1]
    · have := List.all_eq_true.1 h.2 c hc
      simpa using this

theorem partOk_map_toUpper {p : List Char} (h : partOk p = true) :
    partOk (p.map Char.toUpper) = true := by
  cases p with
  | nil => simp [partOk] at h
  | cons x xs =>
    rw [partOk, Bool.and_eq_true] at h
    rw [List.map_cons, partOk, Bool.and_eq_true]
    refine ⟨toUpper_isAlpha h.1, ?_⟩
    rw [List.all_eq_true]
    intro c hc
    obtain ⟨a, ha, rfl⟩ := List.mem_map.1 hc
    have := List.all_eq_true.1 h.2 a ha
    simpa using identTailOk_toUpper (by simpa using this)

theorem matchesIdentGrammar_parts {l : List Char} (h : matchesIdentGrammar l = true) :
    ∀ p ∈ splitDot l, partOk p = true := by
  rw [matchesIdentGrammar] at h
  intro p hp
  cases hps : splitDot l with
  | nil => exact absurd hps (splitDot_ne_nil l)
  | cons a ps =>
    rw [hps] at h hp
    cases ps with
    | nil =>
      rcases List.mem_singleton.1 hp with rfl
      exact h
    | cons b ps' =>
      cases ps' with
      | nil =>
        rw [Bool.and_eq_true] at h
        rcases List.mem_cons.1 hp with rfl | hp'
        · exact h.1
        · rcases List.mem_singleton.1 hp' with rfl
          exact h.2
      | cons d ps'' => exact absurd h (by simp)

theorem matchesIdentGrammar_chars {l : List Char} (h : matchesIdentGrammar l = true) :
    ∀ c ∈ l, identTailOk c = true ∨ c = '.' := by
  intro c hc
  have hc' : c ∈ joinDot (splitDot l) := by
    rw [joinDot_splitDot]; exact hc
  rcases mem_joinDot _ c hc' with ⟨p, hp, hcp⟩ | hdot
  · exact Or.inl (partOk_mem (matchesIdentGrammar_parts h p hp) c hcp)
  · exact Or.inr hdot

theorem matchesIdentGrammar_ne_nil {l : List Char} (h : matchesIdentGrammar l = true) :
    l ≠ [] := by
  intro hnil
  subst hnil
  exact absurd h (by decide)

theorem matchesIdentGrammar_map_toUpper {l : List Char}
    (h : matchesIdentGrammar l = true) :
    matchesIdentGrammar (l.map Char.toUpper) = true := by
  rw [matchesIdentGrammar,
    splitDot_map Char.toUpper rfl (fun c => (toUpper_eq_dot_iff c).1) l]
  rw [matchesIdentGrammar] at h
  cases hps : splitDot l with
  | nil => exact absurd hps (splitDot_ne_nil l)
  | cons a ps =>
    rw [hps] at h
    cases ps with
    | nil => simpa using partOk_map_toUpper h
    | cons b ps' =>
      cases ps' with
      | nil =>
        rw [Bool.and_eq_true] at h
        simpa using And.intro (partOk_map_toUpper h.1) (partOk_map_toUpper h.2)
      | cons d ps'' => exact absurd h (by simp)

/-! ## Quote/strip round-trip lemmas -/

theorem filter_quoteRawL {l : List Char} (h : matchesIdentGrammar l = true) :
    (quoteRawL l).filter (fun c => decide (c ≠ '"')) = l.map Char.toUpper := by
  rw [quoteRawL, filter_joinDot _ (by decide), List.map_map]
  have hparts : ∀ p ∈ splitDot l,
      (List.filter (fun c => decide (c ≠ '"')) ∘
        fun p => '"' :: (p.map Char.toUpper) ++ ['"']) p = p.map Char.toUpper := by
    intro p hp
    have hchars : ∀ c ∈ p.map Char.toUpper, (decide (c ≠ '"')) = true := by
      intro c hc
      obtain ⟨a, ha, rfl⟩ := List.mem_map.1 hc
      have hta := partOk_mem (matchesIdentGrammar_parts h p hp) a ha
      simp [toUpper_ne_quote (identTailOk_ne_quote hta)]
    show List.filter (fun c => decide (c ≠ '"')) ('"' :: (p.map Char.toUpper ++ ['"']))
        = p.map Char.toUpper
    rw [List.filter_cons_of_neg (by simp), List.filter_append,
      List.filter_eq_self.2 hchars]
    simp
  rw [List.map_congr_left hparts,
    ← splitDot_map Char.toUpper rfl (fun c => (toUpper_eq_dot_iff c).1) l,
    joinDot_splitDot]

theorem quoteRawL_map_toUpper (l : List Char) :
    quoteRawL (l.map Char.toUpper) = quoteRawL l := by
  rw [quoteRawL, quoteRawL,
    splitDot_map Char.toUpper rfl (fun c => (toUpper_eq_dot_iff c).1) l, List.map_map]
  congr 1
  apply List.map_congr_left
  intro p _
  show '"' :: ((p.map Char.toUpper).map Char.toUpper ++ ['"'])
      = '"' :: (p.map Char.toUpper ++ ['"'])
  rw [List.map_map,
    List.map_congr_left (f := Char.toUpper ∘ Char.toUpper) (g := Char.toUpper)
      (fun c _ => toUpper_idem c)]

/-- C2 counterexample: the string `"a\n"` does not match the grammar
`^[A-Za-z][A-Za-z0-9_#$]*(\.[A-Za-z][A-Za-z0-9_#$]*)?$` (read with `$`
anchored at the true end of the string), yet `_quote_identifier` does
not raise on it: Python's `$` also matches just before a trailing
newline, so the validator accepts `"a\n"` and returns `"A\n"` quoted —
refuting the claimed "raises if and only if the string does not match
the grammar". -/
theorem claim_C2_counterexample :
    matchesIdentGrammar "a\n".data = false ∧
    _quote_identifier "a\n" = Except.ok "\"A\n\"" := by
  exact ⟨by decide, rfl⟩

/-- C2 amended: `_quote_identifier` raises if and only if the string
fails the pattern under Python `re.match` semantics — that is, unless
the string, or the string minus a single trailing newline, matches the
grammar; in particular it raises on the empty string, on `"1abc"` and
on `"a;DROP TABLE x"`, and every accepted string is returned
dialect-quoted without raising. -/
theorem claim_C2_amended :
    (∀ s : String,
      (∃ e, _quote_identifier s = Except.error e) ↔ pyMatchesIdentPattern s.data = false) ∧
    (∀ s : String, pyMatchesIdentPattern s.data = true →
      _quote_identifier s = Except.ok (quoteRaw s)) ∧
    (∃ e, _quote_identifier "" = Except.error e) ∧
    (∃ e, _quote_identifier "1abc" = Except.error e) ∧
    (∃ e, _quote_identifier "a;DROP TABLE x" = Except.error e) := by
  refine ⟨?_, ?_, ⟨_, rfl⟩, ⟨_, rfl⟩, ⟨_, rfl⟩⟩
  · intro s
    rw [_quote_identifier]
    by_cases hnil : s.data = []
    · rw [if_pos hnil]
      have : pyMatchesIdentPattern s.data = false := by
        rw [hnil]; decide
      simp [this]
    · rw [if_neg hnil]
      by_cases hm : pyMatchesIdentPattern s.data
      · simp [hm]
      · simp [hm]
  · intro s hm
    rw [_quote_identifier]
    have hnil : s.data ≠ [] := by
      intro h
      rw [h] at hm
      exact absurd hm (by decide)
    rw [if_neg hnil, if_pos hm]

/-- C2 amended witness: a matching identifier is quoted without
raising. -/
theorem claim_C2_amended_witness :
    _quote_identifier "stage.items" = Except.ok (quoteRaw "stage.items") :=
  claim_C2_amended.2.1 "stage.items" (by decide)

/-- C8: For every identifier matching the grammar, validation
succeeds and the quoted form is idempotent under re-validation of its
unquoted source: stripping the double quotes from the quoted result
and validating that string again yields the same quoted form. -/
theorem claim_C8_quote_idempotent :
    ∀ s : String, matchesIdentGrammar s.data = true →
      _quote_identifier s = Except.ok (quoteRaw s) ∧
      _quote_identifier (stripQuotes (quoteRaw s)) = Except.ok (quoteRaw s) := by
  intro s hg
  have hnil : s.data ≠ [] := matchesIdentGrammar_ne_nil hg
  constructor
  · rw [_quote_identifier, if_neg hnil, if_pos (by rw [pyMatchesIdentPattern, hg]; rfl)]
  · have hstrip : (stripQuotes (quoteRaw s)).data = s.data.map Char.toUpper := by
      rw [stripQuotes, quoteRaw]
      show List.filter (fun c => decide (c ≠ '"')) (quoteRawL s.data) = _
      rw [filter_quoteRawL hg]
    have hup : matchesIdentGrammar (s.data.map Char.toUpper) = true :=
      matchesIdentGrammar_map_toUpper hg
    have hnil' : (stripQuotes (quoteRaw s)).data ≠ [] := by
      rw [hstrip]
      intro h
      exact hnil (List.map_eq_nil_iff.1 h)
    rw [_quote_identifier, if_neg hnil', if_pos (by rw [pyMatchesIdentPattern, hstrip, hup]; rfl)]
    rw [quoteRaw, hstrip, quoteRawL_map_toUpper, ← quoteRaw]

/-- C8 witness: the round trip at a concrete schema-qualified
identifier. -/
theorem claim_C8_quote_idempotent_witness :
    _quote_identifier "Stage.Items" = Except.ok (quoteRaw "Stage.Items") ∧
    _quote_identifier (stripQuotes (quoteRaw "Stage.Items"))
      = Except.ok (quoteRaw "Stage.Items") :=
  claim_C8_quote_idempotent "Stage.Items" (by decide)

end WcpLib

section SanityExamples
open WcpLib
example : matchesIdentGrammar "abc".data = true := by decide
example : matchesIdentGrammar "STAGE.ITEMS".data = true := by decide
example : matchesIdentGrammar "1abc".data = false := by decide
example : matchesIdentGrammar "".data = false := by decide
example : matchesIdentGrammar "a;DROP TABLE x".data = false := by decide
example : matchesIdentGrammar "a\n".data = false := by decide
example : pyMatchesIdentPattern "a\n".data = true := by decide
example : _quote_identifier "stage.items" = Except.ok "\"STAGE\".\"ITEMS\"" := rfl
example : _quote_identifier "a\n" = Except.ok "\"A\n\"" := rfl
example : stripQuotes "\"STAGE\".\"ITEMS\"" = "STAGE.ITEMS" := by decide
end SanityExamples
